import Mathlib

/-!
# Verification of the `pypes` diffusion-MRI pipeline composition library

A shallow embedding of the algorithmic core of the `pypes` repository
(`pypes/dti.py`, `pypes/input_files.py`, `pypes/run.py`), together with
theorems checking the natural-language specification against it.

Conventions of the embedding:
* Python strings are Lean `String`s; the string-splitting primitives used by
  the source (`str.split(sep)`, `str.split(sep, 1)`, whitespace stripping in
  `float`) are re-implemented structurally at the character level so that
  they are executable in the kernel.
* Python `float` values produced by `float(<header string>)` are modelled as
  exact rationals (`ℚ`); the special floating-point values `inf`/`nan` and
  IEEE-754 rounding are outside the model.
* Exceptions are modelled with an explicit error type (`DtiError`); the
  spec's abstract error-class names are used for the constructors.
* File output is modelled as an explicit trace of `FileWrite`s, emitted at
  the exact program points where the source calls `open`/`write`.
-/

namespace Pypes

/-! ## Character-level string utilities (Python `str` semantics) -/

/-- Split a list of characters at every occurrence of the separator
character.  Mirrors Python's `str.split(sep)` for a one-character `sep`:
`"".split(";") == [""]`, `"a;;b".split(";") == ["a","","b"]`. -/
def splitOnChar (sep : Char) : List Char → List (List Char)
  | [] => [[]]
  | c :: cs =>
    if c = sep then
      [] :: splitOnChar sep cs
    else
      match splitOnChar sep cs with
      | [] => [[c]]
      | g :: gs => (c :: g) :: gs

/-- Python `s.split(sep)` for a one-character separator, on `String`s. -/
def pySplit (sep : Char) (s : String) : List String :=
  (splitOnChar sep s.data).map String.mk

/-- The text of `item` strictly before the first `'='`. -/
def beforeFirstEq (item : String) : String :=
  String.mk (item.data.takeWhile (fun c => c ≠ '='))

/-- The text of `item` strictly after the first `'='` (everything after it,
including any later `'='`). -/
def afterFirstEq (item : String) : String :=
  String.mk ((item.data.dropWhile (fun c => c ≠ '=')).tail)

/-- Python `item.split("=", 1)`: if `item` contains `'='`, the two-element
list `[text before the first '=', text after it]`; otherwise `[item]`.
No whitespace is trimmed on either side. -/
def pySplitEq1 (item : String) : List String :=
  if item.data.contains '=' then [beforeFirstEq item, afterFirstEq item]
  else [item]

/-- Strip leading and trailing whitespace, as Python's `float(str)` does
before parsing. -/
def pyStrip (s : String) : String :=
  String.mk (((s.data.dropWhile Char.isWhitespace).reverse.dropWhile
    Char.isWhitespace).reverse)

/-! ## A model of Python `float(<string>)` over exact rationals

Parses the CPython float-literal grammar
`sign? digitpart? ('.' digitpart?)? (('e'|'E') sign? digitpart)?`
(with at least one mantissa digit, underscores allowed between digits),
returning the exact rational value.  `inf`/`nan` literals and IEEE-754
rounding/overflow are outside the model: the parser is the identity on the
mathematical value of the literal. -/

/-- Numeric value of a decimal digit character. -/
def digitVal (c : Char) : Nat := c.toNat - 48

/-- Consume a maximal run `digit (('_')? digit)*` continuing an
already-started digit sequence.  Returns the accumulated value, the number
of digits consumed and the remaining characters.  The `fuel` argument (any
bound ≥ the length of the input) makes the recursion structural. -/
def digitpartGo : Nat → List Char → Nat → Nat → Nat × Nat × List Char
  | 0, cs, v, k => (v, k, cs)
  | _ + 1, [], v, k => (v, k, [])
  | fuel + 1, c :: cs, v, k =>
    if c.isDigit then digitpartGo fuel cs (10 * v + digitVal c) (k + 1)
    else if c = '_' then
      match cs with
      | d :: cs2 =>
        if d.isDigit then digitpartGo fuel cs2 (10 * v + digitVal d) (k + 1)
        else (v, k, c :: cs)
      | [] => (v, k, [c])
    else (v, k, c :: cs)

/-- Consume a (possibly empty) `digitpart` from the head of the input.
Returns `(value, number of digits, rest)`; the count is `0` when the input
does not start with a digit. -/
def digitpart (cs : List Char) : Nat × Nat × List Char :=
  match cs with
  | [] => (0, 0, [])
  | c :: cs2 =>
    if c.isDigit then digitpartGo cs2.length cs2 (digitVal c) 1
    else (0, 0, c :: cs2)

/-- Parse an unsigned float literal from `cs`, requiring the whole input to
be consumed.  Returns the exact rational value. -/
def parseUnsignedFloat (cs : List Char) : Option ℚ :=
  let (iv, ik, cs1) := digitpart cs
  let (fv, fk, cs2) :=
    match cs1 with
    | '.' :: r => digitpart r
    | _ => (0, 0, cs1)
  if ik + fk = 0 then none
  else
    let mantNum : Nat := iv * 10 ^ fk + fv
    match cs2 with
    | [] => some (mkRat mantNum (10 ^ fk))
    | c :: r =>
      if c = 'e' ∨ c = 'E' then
        let (eneg, r2) :=
          match r with
          | '+' :: t => (false, t)
          | '-' :: t => (true, t)
          | t => (false, t)
        let (ev, ek, r3) := digitpart r2
        if ek = 0 then none
        else if r3 = [] then
          if eneg then some (mkRat mantNum (10 ^ fk * 10 ^ ev))
          else some (mkRat (mantNum * 10 ^ ev) (10 ^ fk))
        else none
      else none

/-- Model of Python `float(s)` for finite numeric literals: strip
whitespace, parse an optional sign and then an unsigned float literal.
`none` models a `ValueError`. -/
def parsePyFloat (s : String) : Option ℚ :=
  match (pyStrip s).data with
  | '+' :: cs => parseUnsignedFloat cs
  | '-' :: cs => (parseUnsignedFloat cs).map (fun q => -q)
  | cs => parseUnsignedFloat cs

/-! ## `write_acquisition_parameters` (src/pypes/dti.py) -/

/-- Error classes for the acquisition-parameter derivation, named after the
spec's error taxonomy.  In the source these surface as Python exceptions:
`malformedMetadata` is the `ValueError` raised by `dict(...)` on a segment
without `'='`, `unsupportedPhaseEncoding` the `ValueError` raised for a
`phaseDir` other than `"+"`/`"-"` (carrying the offending value, which may
be absent), `missingDwell` the `KeyError` from `descrip["dwell"]`, and
`invalidDwellTime` the `ValueError` from `float(...)`. -/
inductive DtiError where
  | malformedMetadata (item : String)
  | unsupportedPhaseEncoding (value : Option String)
  | missingDwell
  | invalidDwellTime (value : String)
deriving DecidableEq

/-- One file written to the working directory: name and full text. -/
structure FileWrite where
  name : String
  content : String
deriving DecidableEq

/-- The part of a loaded NIfTI image that `write_acquisition_parameters`
reads: the shape (the last entry is the number of volumes) and the
free-text `descrip` header annotation. -/
structure Image where
  shape : List Nat
  descrip : String
deriving DecidableEq

/-- Decidable equality for `Except`, used to compare modelled outcomes. -/
instance {ε α : Type} [DecidableEq ε] [DecidableEq α] : DecidableEq (Except ε α) :=
  fun a b =>
    match a, b with
    | .ok x, .ok y =>
      if h : x = y then .isTrue (by rw [h]) else .isFalse (by simp [h])
    | .error e, .error f =>
      if h : e = f then .isTrue (by rw [h]) else .isFalse (by simp [h])
    | .ok _, .error _ => .isFalse (by simp)
    | .error _, .ok _ => .isFalse (by simp)

/-- Outcome of `write_acquisition_parameters`: the returned pair of paths
(or the raised error), together with the trace of files written.  The
source returns `os.path.abspath` of each name; the embedding keeps the
bare names, the working-directory prefix being environment state. -/
structure WapResult where
  result : Except DtiError (String × String)
  writes : List FileWrite
deriving DecidableEq

/-- `[item.split("=", 1) for item in items]` fed to `dict(...)`: each
segment must split into exactly two parts, i.e. contain an `'='`;
otherwise `dict` raises (modelled as `malformedMetadata` naming the
segment). -/
def parseItems : List String → Except DtiError (List (String × String))
  | [] => .ok []
  | item :: rest =>
    match pySplitEq1 item with
    | [k, v] =>
      match parseItems rest with
      | .ok tail => .ok ((k, v) :: tail)
      | .error e => .error e
    | _ => .error (.malformedMetadata item)

/-- `dict([item.split("=", 1) for item in header["descrip"][()].split(";")])`
from line 128 of `src/pypes/dti.py`, as an association list in segment
order. -/
def parseDescrip (s : String) : Except DtiError (List (String × String)) :=
  parseItems (pySplit ';' s)

/-- Python `dict` lookup on an association list built from pairs in order:
a later binding of the same key overrides an earlier one.  Models
`descrip.get(key)` / `descrip[key]`. -/
def dictGet (kvs : List (String × String)) (k : String) : Option String :=
  match kvs.reverse.find? (fun p => p.1 = k) with
  | some p => some p.2
  | none => none

/-- The tail of `write_acquisition_parameters` after the `phaseDir`
dispatch has produced the axis string `pe_axis`: fetch `dwell`
(`KeyError` if absent), parse it as a float (`ValueError` if malformed),
apply the fixed `epi_factor = 128` readout-time formula, then perform the
two file writes in source order and return the pair of paths. -/
def wapWithAxis (descrip : List (String × String)) (n_directions : Nat)
    (pe_axis : String) : WapResult :=
  match dictGet descrip "dwell" with
  | none => ⟨.error .missingDwell, []⟩
  | some dwellStr =>
    match parsePyFloat dwellStr with
    | none => ⟨.error (.invalidDwellTime dwellStr), []⟩
    | some dwell =>
      let epi_factor : ℚ := 128
      let total_readout_time : ℚ := (epi_factor - 1) * dwell * (1 / 1000)
      let acqp : FileWrite :=
        ⟨"diff.acqp", pe_axis ++ " " ++ toString total_readout_time ++ "\n"⟩
      let index : FileWrite :=
        ⟨"diff.index",
          String.intercalate " " (List.replicate n_directions "1") ++ "\n"⟩
      ⟨.ok ("diff.acqp", "diff.index"), [acqp, index]⟩

/-- Shallow embedding of `write_acquisition_parameters` (src/pypes/dti.py,
lines 122-147).  Straight-line translation: volume count from the last
shape entry, `descrip` parsed into a dict, `phaseDir` mapped to the
phase-encoding axis string (any other value raises), then `wapWithAxis`
for the dwell parsing, readout-time formula and the file writes. -/
def write_acquisition_parameters (img : Image) : WapResult :=
  let n_directions := img.shape.getLastD 0
  match parseDescrip img.descrip with
  | .error e => ⟨.error e, []⟩
  | .ok descrip =>
    let phase := dictGet descrip "phaseDir"
    if phase = some "+" then
      wapWithAxis descrip n_directions "0 1 0"
    else if phase = some "-" then
      wapWithAxis descrip n_directions "0 -1 0"
    else
      ⟨.error (.unsupportedPhaseEncoding phase), []⟩

/-! ## Workflow graphs (nipype `pe.Workflow` objects as wired by the source)

A workflow is a named DAG of named nodes with port-to-port connections.
Each node carries the role the spec's discovery interface looks up
(`SelectFiles`-like file-selection node, `DataSink`-like result-sink node,
or anything else) and, for an `IdentityInterface` infosource, its
iteration axes. -/

/-- The role by which `find_wf_node` locates a node: the interface class
tested with `isinstance` in the source (`SelectFiles`, `DataSink`, or any
other interface). -/
inductive Role where
  | selectFiles
  | dataSink
  | other
deriving DecidableEq

/-- A workflow node: unique name, discovery role, and the iteration axes
set on it (`node.iterables`; empty for non-iterating nodes). -/
structure WfNode where
  name : String
  role : Role
  iterables : List (String × List String) := []
deriving DecidableEq

/-- A directed port-to-port connection
`(source node, source port, destination node, destination port)`. -/
structure Connection where
  srcNode : String
  srcPort : String
  dstNode : String
  dstPort : String
deriving DecidableEq

/-- A workflow: name (used as the namespace prefix when attached inside
another workflow), nodes and connections. -/
structure Workflow where
  name : String
  nodes : List WfNode
  conns : List Connection
deriving DecidableEq

/-- Node with no role and no iterables. -/
def plainNode (name : String) : WfNode := { name := name, role := .other }

/-- Number of nodes of a workflow matching a role. -/
def countRole (wf : Workflow) (r : Role) : Nat :=
  (wf.nodes.filter (fun n => n.role = r)).length

/-- Graph-construction error raised by the boundary-port resolution. -/
inductive GraphError where
  | unresolvedBoundaryPort (r : Role)
deriving DecidableEq

/-- Modelled from the spec: `find_wf_node` (imported by `src/pypes/dti.py`
from `pypes/utils.py`, which is not under `src/`) — the
lookup-by-expected-role operation over a host workflow's node set.  Per
the spec the discovery is deterministic: it fails with
`UnresolvedBoundaryPortError` when zero nodes or more than one node match
the expected role, and returns the node when exactly one matches. -/
def find_wf_node (wf : Workflow) (r : Role) : Except GraphError WfNode :=
  match wf.nodes.filter (fun n => n.role = r) with
  | [n] => .ok n
  | _ => .error (.unresolvedBoundaryPort r)

/-- Prefix every node of `sub` (and both endpoints of its internal
connections) with `sub`'s name, as namespacing does when a sub-workflow is
inserted into a host graph. -/
def namespacedNodes (sub : Workflow) : List WfNode :=
  sub.nodes.map (fun n => { n with name := sub.name ++ "." ++ n.name })

/-- Internal connections of `sub` rewritten to the namespaced node names. -/
def namespacedConns (sub : Workflow) : List Connection :=
  sub.conns.map (fun c =>
    { c with srcNode := sub.name ++ "." ++ c.srcNode,
             dstNode := sub.name ++ "." ++ c.dstNode })

/-- `fsl_dti_preprocessing` (src/pypes/dti.py, lines 149-209): the
diffusion pre-processing sub-workflow — its nine nodes and the eleven
port-to-port connections of the `wf.connect` call. -/
def fsl_dti_preprocessing (wf_name : String) : Workflow :=
  { name := wf_name,
    nodes := [plainNode "write_acqp", plainNode "extract_b0",
              plainNode "gunzip_b0", plainNode "coreg_b0",
              plainNode "brain_sel", plainNode "brain_split",
              plainNode "brain_merge", plainNode "eddy", plainNode "dtifit"],
    conns := [⟨"write_acqp", "out_acqp", "eddy", "in_acqp"⟩,
              ⟨"write_acqp", "out_index", "eddy", "in_index"⟩,
              ⟨"extract_b0", "roi_file", "gunzip_b0", "in_file"⟩,
              ⟨"gunzip_b0", "out_file", "coreg_b0", "target"⟩,
              ⟨"brain_sel", "out", "coreg_b0", "apply_to_files"⟩,
              ⟨"coreg_b0", "coregistered_files", "brain_split", "inlist"⟩,
              ⟨"brain_split", "out1", "brain_merge", "in_file"⟩,
              ⟨"brain_split", "out2", "brain_merge", "operand_files"⟩,
              ⟨"brain_merge", "out_file", "eddy", "in_mask"⟩,
              ⟨"eddy", "out_corrected", "dtifit", "dwi"⟩,
              ⟨"brain_merge", "out_file", "dtifit", "mask"⟩] }

/-- Modelled from the spec: the anatomical pre-processing sub-workflow
built by `attach_spm_anat_preprocessing` (`pypes/anat.py`, not under
`src/`).  Only the nodes referenced from `src/pypes/dti.py`
(`new_segment`, `gunzip_anat`) are modelled; both are ordinary processing
nodes (neither a file-selection nor a result-sink role). -/
def spm_anat_preprocessing (wf_name : String) : Workflow :=
  { name := wf_name,
    nodes := [plainNode "gunzip_anat", plainNode "new_segment"],
    conns := [⟨"gunzip_anat", "out_file", "new_segment", "channel_files"⟩] }

/-- Modelled from the spec: `attach_spm_anat_preprocessing`
(`pypes/anat.py`, not under `src/`) — attach the anatomical sub-workflow
to the host graph.  Per the spec's GraphComposer contract it resolves the
host's file-selection and result-sink nodes by role (failing with
`UnresolvedBoundaryPortError` on zero or multiple matches), inserts the
namespaced sub-workflow and adds the boundary connections. -/
def attach_spm_anat_preprocessing (main_wf : Workflow) (wf_name : String) :
    Except GraphError Workflow :=
  match find_wf_node main_wf .selectFiles with
  | .error e => .error e
  | .ok in_files =>
    match find_wf_node main_wf .dataSink with
    | .error e => .error e
    | .ok datasink =>
      let anat_wf := spm_anat_preprocessing wf_name
      .ok { main_wf with
        nodes := main_wf.nodes ++ namespacedNodes anat_wf,
        conns := main_wf.conns ++ namespacedConns anat_wf ++
          [⟨in_files.name, "anat", wf_name ++ ".gunzip_anat", "in_file"⟩,
           ⟨wf_name ++ ".new_segment", "native_class_images",
             datasink.name, "anat.@segmented"⟩] }

/-- `attach_fsl_dti_preprocessing` (src/pypes/dti.py, lines 212-264):
first attaches the anatomical sub-workflow, then resolves the host's
file-selection and result-sink nodes by role, inserts the namespaced
diffusion sub-workflow, and adds the boundary connections of the final
`main_wf.connect` call. -/
def attach_fsl_dti_preprocessing (main_wf : Workflow) (wf_name : String) :
    Except GraphError Workflow :=
  match attach_spm_anat_preprocessing main_wf "spm_anat_preproc" with
  | .error e => .error e
  | .ok main2 =>
    match find_wf_node main2 .selectFiles with
    | .error e => .error e
    | .ok in_files =>
      match find_wf_node main2 .dataSink with
      | .error e => .error e
      | .ok datasink =>
        let dti_wf := fsl_dti_preprocessing wf_name
        let anat := "spm_anat_preproc"
        .ok { main2 with
          nodes := main2.nodes ++ namespacedNodes dti_wf,
          conns := main2.conns ++ namespacedConns dti_wf ++
            [⟨in_files.name, "diff", wf_name ++ ".eddy", "in_file"⟩,
             ⟨in_files.name, "diff", wf_name ++ ".write_acqp", "in_file"⟩,
             ⟨in_files.name, "diff", wf_name ++ ".extract_b0", "in_file"⟩,
             ⟨in_files.name, "diff_bval", wf_name ++ ".dtifit", "bvals"⟩,
             ⟨in_files.name, "diff_bvec", wf_name ++ ".dtifit", "bvecs"⟩,
             ⟨in_files.name, "diff_bval", wf_name ++ ".eddy", "in_bval"⟩,
             ⟨in_files.name, "diff_bvec", wf_name ++ ".eddy", "in_bvec"⟩,
             ⟨anat ++ ".new_segment", "native_class_images",
               wf_name ++ ".brain_sel", "inlist"⟩,
             ⟨anat ++ ".gunzip_anat", "out_file",
               wf_name ++ ".coreg_b0", "source"⟩,
             ⟨wf_name ++ ".eddy", "out_corrected",
               datasink.name, "diff.@eddy_corrected"⟩,
             ⟨wf_name ++ ".dtifit", "V1", datasink.name, "diff.@v1"⟩,
             ⟨wf_name ++ ".dtifit", "V2", datasink.name, "diff.@v2"⟩,
             ⟨wf_name ++ ".dtifit", "V3", datasink.name, "diff.@v3"⟩,
             ⟨wf_name ++ ".dtifit", "L1", datasink.name, "diff.@l1"⟩,
             ⟨wf_name ++ ".dtifit", "L2", datasink.name, "diff.@l2"⟩,
             ⟨wf_name ++ ".dtifit", "L3", datasink.name, "diff.@l3"⟩,
             ⟨wf_name ++ ".dtifit", "MD", datasink.name,
               "diff.@mean_diffusivity"⟩,
             ⟨wf_name ++ ".dtifit", "FA", datasink.name,
               "diff.@fractional_anisotropy"⟩,
             ⟨wf_name ++ ".dtifit", "MO", datasink.name,
               "diff.@mode_of_anisotropy"⟩,
             ⟨wf_name ++ ".dtifit", "S0", datasink.name, "diff.@s0"⟩,
             ⟨wf_name ++ ".dtifit", "tensor", datasink.name,
               "diff.@tensor"⟩] }

/-! ## Input-file selection and iteration (src/pypes/input_files.py) -/

/-- `input_file_wf` (src/pypes/input_files.py, lines 66-110): an
`infosrc` identity node carrying the `field_iterables` as its iteration
axes, a `select` file-selection node, and one connection per field name
from `infosrc` to `select`. -/
def input_file_wf (field_iterables : List (String × List String))
    (wf_name : String) : Workflow :=
  { name := wf_name,
    nodes := [{ name := "infosrc", role := .other, iterables := field_iterables },
              { name := "select", role := .selectFiles }],
    conns := field_iterables.map (fun f => ⟨"infosrc", f.1, "select", f.1⟩) }

/-- `subject_session_input` (src/pypes/input_files.py, lines 14-63): the
field iterables are `session_id` over the session names and `subject_id`
over the subject ids, in that order (lines 52-54), passed to
`input_file_wf`. -/
def subject_session_input (session_names : List String)
    (subject_ids : List String) (wf_name : String) : Workflow :=
  input_file_wf [("session_id", session_names), ("subject_id", subject_ids)]
    wf_name

/-- The iteration axes set on a named node of a workflow. -/
def node_iterables (wf : Workflow) (node : String) : List (String × List String) :=
  match wf.nodes.find? (fun n => n.name = node) with
  | some n => n.iterables
  | none => []

/-- Modelled from the spec: the IterationExpander — the execution engine
(outside `src/`) expands the iteration axes set on a node into one logical
execution instance per element of the cross product of the axes' value
lists, in axis order. -/
def expandIterables : List (String × List String) → List (List (String × String))
  | [] => [[]]
  | (f, vs) :: rest =>
    (vs.map (fun v => (expandIterables rest).map (fun t => (f, v) :: t))).flatten

/-- The namespace tag of one execution instance, derived from its
combination of axis values (`_axis_value` segments, as the engine
parameterizes node paths). -/
def instanceTag (combo : List (String × String)) : String :=
  String.join (combo.map (fun p => "_" ++ p.1 ++ "_" ++ p.2))

/-! ## Main in/out workflow and runner (src/pypes/run.py) -/

/-- Modelled from the spec: `joinpaths` (`pypes/utils.py`, not under
`src/`) — the node that joins its two arguments into one storage
sub-path, first argument above the second. -/
def joinpaths (arg1 arg2 : String) : String := arg1 ++ "/" ++ arg2

/-- The value the datasink's `container` input receives for one execution
instance, per the connections of `in_out_workflow` (src/pypes/run.py,
lines 76-87): with no session axis the subject identifier flows straight
from `infosrc.subject_id` to `datasink.container`; with a session axis the
`joinpath` node receives the subject identifier as `arg1` and the session
identifier as `arg2` and its output flows to `datasink.container`. -/
def in_out_container (session_names : Option (List String))
    (subject_id session_id : String) : String :=
  match session_names with
  | none => subject_id
  | some _ => joinpaths subject_id session_id

/-- `in_out_workflow` (src/pypes/run.py, lines 13-89) as a workflow graph:
a `datasink` result-sink node, the namespaced `subject_session_input`
sub-workflow, and the container wiring (direct, or through the `joinpath`
node when a session axis is present). -/
def in_out_workflow (session_names : Option (List String))
    (subject_ids : List String) (input_wf_name : String)
    (wf_name : String) : Workflow :=
  let input_wf := subject_session_input (session_names.getD []) subject_ids
    input_wf_name
  let base : Workflow :=
    { name := wf_name,
      nodes := [{ name := "datasink", role := .dataSink }] ++
        namespacedNodes input_wf,
      conns := namespacedConns input_wf }
  match session_names with
  | none =>
    { base with
      conns := base.conns ++
        [⟨input_wf_name ++ ".infosrc", "subject_id", "datasink", "container"⟩] }
  | some _ =>
    { base with
      nodes := base.nodes ++ [plainNode "joinpath"],
      conns := base.conns ++
        [⟨input_wf_name ++ ".infosrc", "subject_id", "joinpath", "arg1"⟩,
         ⟨input_wf_name ++ ".infosrc", "session_id", "joinpath", "arg2"⟩,
         ⟨"joinpath", "out", "datasink", "container"⟩] }

/-- How `run_wf` invokes the workflow's `run` method. -/
inductive RunInvocation where
  | serial
  | multiProc (n_procs : Int)
  | withPlugin (name : String) (kwargs : List (String × String))
deriving DecidableEq

/-- `run_wf` (src/pypes/run.py, lines 92-116).  The `plugin` argument is
an optional string (`None` possible); `plugin_kwargs` is kept as an opaque
payload.  Mirrors the source's dispatch: `plugin == "MultiProc" and
n_cpus > 1` runs MultiProc with `n_procs = n_cpus`; else a falsy plugin
(`not plugin or plugin is None`) or `n_cpus <= 1` runs plainly; otherwise
the named plugin runs with the keyword arguments. -/
def run_wf (plugin : Option String) (n_cpus : Int)
    (plugin_kwargs : List (String × String)) : RunInvocation :=
  if plugin = some "MultiProc" ∧ n_cpus > 1 then
    .multiProc n_cpus
  else if plugin = some "" ∨ plugin = none ∨ n_cpus ≤ 1 then
    .serial
  else
    .withPlugin (plugin.getD "") plugin_kwargs

/-! ## Helper lemmas about the dti embedding -/

/-- On a success of `parseItems`, every segment contained an `'='` and the
result pairs each segment's text before the first `'='` with the text
after it, in order and without trimming. -/
lemma parseItems_ok_of_all_eq (l : List String)
    (h : ∀ item ∈ l, item.data.contains '=' = true) :
    parseItems l = .ok (l.map fun item => (beforeFirstEq item, afterFirstEq item)) := by
  induction l with
  | nil => rfl
  | cons item rest ih =>
    have hitem : item.data.contains '=' = true := h item (by simp)
    have hrest : ∀ it ∈ rest, it.data.contains '=' = true :=
      fun it hit => h it (by simp [hit])
    simp only [parseItems, pySplitEq1, if_pos hitem, ih hrest, List.map_cons]

/-- `parseItems` fails with `malformedMetadata` naming the first segment
that lacks an `'='`. -/
lemma parseItems_err_of_find (l : List String) (bad : String)
    (h : l.find? (fun it => !(it.data.contains '=')) = some bad) :
    parseItems l = .error (.malformedMetadata bad) := by
  induction l with
  | nil => simp [List.find?] at h
  | cons item rest ih =>
    rw [List.find?_cons] at h
    cases hc : item.data.contains '=' with
    | true =>
      rw [hc] at h
      simp only [Bool.not_true] at h
      simp only [parseItems, pySplitEq1, if_pos hc, ih h]
    | false =>
      rw [hc] at h
      simp only [Bool.not_false] at h
      have hb : item = bad := Option.some.inj h
      subst hb
      have hneg : ¬(item.data.contains '=' = true) := by
        rw [hc]; exact Bool.false_ne_true
      simp only [parseItems, pySplitEq1, if_neg hneg]

/-- If `wapWithAxis` succeeds, its last write is the index file holding the
volume count's worth of `"1"` tokens joined by single spaces. -/
lemma wapWithAxis_index_write (descrip : List (String × String)) (n : Nat)
    (pe_axis : String) (v : String × String)
    (h : (wapWithAxis descrip n pe_axis).result = .ok v) :
    (wapWithAxis descrip n pe_axis).writes.getLast? =
      some ⟨"diff.index", String.intercalate " " (List.replicate n "1") ++ "\n"⟩ := by
  unfold wapWithAxis at h ⊢
  split at h
  · simp at h
  · split at h
    · simp at h
    · simp

/-- If `wapWithAxis` fails, it writes nothing. -/
lemma wapWithAxis_no_writes_on_error (descrip : List (String × String)) (n : Nat)
    (pe_axis : String) (e : DtiError)
    (h : (wapWithAxis descrip n pe_axis).result = .error e) :
    (wapWithAxis descrip n pe_axis).writes = [] := by
  unfold wapWithAxis at h ⊢
  split at h
  · simp
  · split at h
    · simp
    · simp at h

/-! ## Claims C1-C4, C8, C9 -/

/-- C1: for an input image whose parsed header metadata has `phaseDir` equal
to `"+"` or `"-"` and a `dwell` value parseable as a number,
`write_acquisition_parameters` writes as the single line of the
acquisition-parameters artifact the phase-encoding axis components —
`0 1 0` for `"+"`, `0 -1 0` for `"-"` — followed by the total readout time
`(128 - 1) * dwell * 1e-3`, space-separated. -/
theorem write_acqp_readout_and_axis (img : Image) (m : List (String × String))
    (dwellStr : String) (dwell : ℚ)
    (hm : parseDescrip img.descrip = .ok m)
    (hds : dictGet m "dwell" = some dwellStr)
    (hq : parsePyFloat dwellStr = some dwell) :
    (dictGet m "phaseDir" = some "+" →
      (write_acquisition_parameters img).writes =
        [⟨"diff.acqp",
           "0 1 0" ++ " " ++ toString ((128 - 1 : ℚ) * dwell * (1 / 1000)) ++ "\n"⟩,
         ⟨"diff.index",
           String.intercalate " " (List.replicate (img.shape.getLastD 0) "1") ++ "\n"⟩]) ∧
    (dictGet m "phaseDir" = some "-" →
      (write_acquisition_parameters img).writes =
        [⟨"diff.acqp",
           "0 -1 0" ++ " " ++ toString ((128 - 1 : ℚ) * dwell * (1 / 1000)) ++ "\n"⟩,
         ⟨"diff.index",
           String.intercalate " " (List.replicate (img.shape.getLastD 0) "1") ++ "\n"⟩]) := by
  constructor
  · intro hp
    simp only [write_acquisition_parameters, hm, wapWithAxis, hds, hq]
    rw [if_pos hp]
  · intro hp
    simp only [write_acquisition_parameters, hm, wapWithAxis, hds, hq]
    rw [if_neg (by simp [hp]), if_pos hp]

/-- C1 witness: the example image with 30 volumes and header
`"phaseDir=+;dwell=0.39"`. -/
theorem write_acqp_readout_and_axis_witness :
    (write_acquisition_parameters ⟨[2, 2, 2, 30], "phaseDir=+;dwell=0.39"⟩).writes =
      [⟨"diff.acqp",
         "0 1 0" ++ " " ++ toString ((128 - 1 : ℚ) * mkRat 39 100 * (1 / 1000)) ++ "\n"⟩,
       ⟨"diff.index",
         String.intercalate " " (List.replicate 30 "1") ++ "\n"⟩] :=
  (write_acqp_readout_and_axis ⟨[2, 2, 2, 30], "phaseDir=+;dwell=0.39"⟩
    [("phaseDir", "+"), ("dwell", "0.39")] "0.39" (mkRat 39 100)
    (by decide) (by decide) (by decide)).1 (by decide)

/-- C2: for every input image accepted by `write_acquisition_parameters`
(the call returns successfully), the index artifact it writes is one line
of exactly N tokens, every one the literal `"1"`, separated by single
spaces, where N is the input's volume count (last shape entry). -/
theorem write_acqp_index_tokens (img : Image) (v : String × String)
    (h : (write_acquisition_parameters img).result = .ok v) :
    (write_acquisition_parameters img).writes.getLast? =
      some ⟨"diff.index",
        String.intercalate " " (List.replicate (img.shape.getLastD 0) "1") ++ "\n"⟩ ∧
    (List.replicate (img.shape.getLastD 0) "1").length = img.shape.getLastD 0 ∧
    ∀ t ∈ List.replicate (img.shape.getLastD 0) "1", t = "1" := by
  refine ⟨?_, List.length_replicate .., fun t ht => List.eq_of_mem_replicate ht⟩
  rcases hE : parseDescrip img.descrip with e | descrip
  · simp only [write_acquisition_parameters, hE] at h
    simp at h
  · simp only [write_acquisition_parameters, hE] at h ⊢
    by_cases hp : dictGet descrip "phaseDir" = some "+"
    · rw [if_pos hp] at h ⊢
      exact wapWithAxis_index_write _ _ _ _ h
    · rw [if_neg hp] at h ⊢
      by_cases hn : dictGet descrip "phaseDir" = some "-"
      · rw [if_pos hn] at h ⊢
        exact wapWithAxis_index_write _ _ _ _ h
      · rw [if_neg hn] at h
        simp at h

/-- C2 witness: a 3-volume image. -/
theorem write_acqp_index_tokens_witness :
    (write_acquisition_parameters ⟨[2, 2, 2, 3], "phaseDir=-;dwell=0.5"⟩).writes.getLast? =
      some ⟨"diff.index", String.intercalate " " (List.replicate 3 "1") ++ "\n"⟩ ∧
    (List.replicate 3 "1").length = 3 ∧
    ∀ t ∈ List.replicate 3 "1", t = "1" :=
  write_acqp_index_tokens ⟨[2, 2, 2, 3], "phaseDir=-;dwell=0.5"⟩
    ("diff.acqp", "diff.index") (by decide)

/-- C3: for an input image whose parsed header metadata has a `phaseDir`
value other than `"+"` or `"-"` (including an absent key, when the lookup
yields `none`), `write_acquisition_parameters` fails with the
unsupported-phase-encoding error carrying the offending value, and writes
no artifact. -/
theorem write_acqp_bad_phase (img : Image) (m : List (String × String))
    (hm : parseDescrip img.descrip = .ok m)
    (hp : dictGet m "phaseDir" ≠ some "+")
    (hn : dictGet m "phaseDir" ≠ some "-") :
    write_acquisition_parameters img =
      ⟨.error (.unsupportedPhaseEncoding (dictGet m "phaseDir")), []⟩ := by
  simp only [write_acquisition_parameters, hm]
  rw [if_neg hp, if_neg hn]

/-- C3 witness: header whose `phaseDir` is `"A"`. -/
theorem write_acqp_bad_phase_witness :
    write_acquisition_parameters ⟨[2, 2, 2, 3], "phaseDir=A;dwell=0.39"⟩ =
      ⟨.error (.unsupportedPhaseEncoding (some "A")), []⟩ :=
  write_acqp_bad_phase ⟨[2, 2, 2, 3], "phaseDir=A;dwell=0.39"⟩
    [("phaseDir", "A"), ("dwell", "0.39")] (by decide) (by decide) (by decide)

/-- C4: the metadata parser maps each semicolon-separated segment's text
before the first `"="` to the text after it, byte-for-byte with no
whitespace trimming; and when some segment lacks an `"="`, it fails with
the malformed-metadata error (naming the first such segment). -/
theorem metadata_parse_pairs_or_fails (s : String) (bad : String) :
    ((∀ item ∈ pySplit ';' s, item.data.contains '=' = true) →
      parseDescrip s =
        .ok ((pySplit ';' s).map fun item => (beforeFirstEq item, afterFirstEq item))) ∧
    ((pySplit ';' s).find? (fun item => !(item.data.contains '=')) = some bad →
      parseDescrip s = .error (.malformedMetadata bad)) :=
  ⟨fun h => parseItems_ok_of_all_eq _ h, fun h => parseItems_err_of_find _ _ h⟩

/-- C4 witness: a well-formed two-pair annotation with untrimmed spaces,
and a malformed annotation whose segment `"x"` lacks `"="`. -/
theorem metadata_parse_pairs_or_fails_witness :
    parseDescrip "a = 1;b=2=3" = .ok [("a ", " 1"), ("b", "2=3")] ∧
    parseDescrip "a=1;x;b=2" = .error (.malformedMetadata "x") :=
  ⟨by
    have h := (metadata_parse_pairs_or_fails "a = 1;b=2=3" "").1 (by decide)
    rw [h]
    decide,
   (metadata_parse_pairs_or_fails "a=1;x;b=2" "x").2 (by decide)⟩

/-- C8: for an input image with a valid `phaseDir` whose `dwell` value is
present but not parseable as a floating-point number,
`write_acquisition_parameters` fails with the invalid-dwell-time error. -/
theorem write_acqp_invalid_dwell (img : Image) (m : List (String × String))
    (dwellStr : String)
    (hm : parseDescrip img.descrip = .ok m)
    (hph : dictGet m "phaseDir" = some "+" ∨ dictGet m "phaseDir" = some "-")
    (hds : dictGet m "dwell" = some dwellStr)
    (hq : parsePyFloat dwellStr = none) :
    write_acquisition_parameters img = ⟨.error (.invalidDwellTime dwellStr), []⟩ := by
  rcases hph with hp | hp
  · simp only [write_acquisition_parameters, hm, wapWithAxis, hds, hq]
    rw [if_pos hp]
  · simp only [write_acquisition_parameters, hm, wapWithAxis, hds, hq]
    rw [if_neg (by simp [hp]), if_pos hp]

/-- C8 witness: `dwell` is the non-numeric string `"fast"`. -/
theorem write_acqp_invalid_dwell_witness :
    write_acquisition_parameters ⟨[2, 2, 2, 3], "phaseDir=+;dwell=fast"⟩ =
      ⟨.error (.invalidDwellTime "fast"), []⟩ :=
  write_acqp_invalid_dwell ⟨[2, 2, 2, 3], "phaseDir=+;dwell=fast"⟩
    [("phaseDir", "+"), ("dwell", "fast")] "fast"
    (by decide) (Or.inl (by decide)) (by decide) (by decide)

/-- C9: whenever `write_acquisition_parameters` fails for any data reason
(malformed metadata segment, unsupported or absent `phaseDir`, unparseable
or absent `dwell`), its write trace is empty: neither the
acquisition-parameters file nor the index file is created, because in the
source all parsing and validation complete before the first `open`. -/
theorem write_acqp_no_writes_on_error (img : Image) (e : DtiError)
    (h : (write_acquisition_parameters img).result = .error e) :
    (write_acquisition_parameters img).writes = [] := by
  rcases hE : parseDescrip img.descrip with e2 | descrip
  · simp only [write_acquisition_parameters, hE]
  · simp only [write_acquisition_parameters, hE] at h ⊢
    by_cases hp : dictGet descrip "phaseDir" = some "+"
    · rw [if_pos hp] at h ⊢
      exact wapWithAxis_no_writes_on_error _ _ _ _ h
    · rw [if_neg hp] at h ⊢
      by_cases hn : dictGet descrip "phaseDir" = some "-"
      · rw [if_pos hn] at h ⊢
        exact wapWithAxis_no_writes_on_error _ _ _ _ h
      · rw [if_neg hn]

/-- C9 witness: a header with a malformed metadata segment produces no
writes. -/
theorem write_acqp_no_writes_on_error_witness :
    (write_acquisition_parameters ⟨[2, 2, 2, 3], "phaseDir=+;dwell"⟩).writes = [] :=
  write_acqp_no_writes_on_error ⟨[2, 2, 2, 3], "phaseDir=+;dwell"⟩
    (.malformedMetadata "dwell") (by decide)

/-! ## Helper lemmas about role discovery and attachment -/

/-- `find_wf_node` fails with `unresolvedBoundaryPort` exactly when the
number of nodes matching the role is not one. -/
lemma find_wf_node_error (wf : Workflow) (r : Role)
    (h : countRole wf r ≠ 1) :
    find_wf_node wf r = .error (.unresolvedBoundaryPort r) := by
  unfold find_wf_node
  unfold countRole at h
  rcases hf : wf.nodes.filter (fun n => n.role = r) with _ | ⟨a, _ | ⟨b, l⟩⟩
  · rw [hf]
  · exact absurd (by rw [hf]; rfl) h
  · rw [hf]

/-- `find_wf_node` succeeds when exactly one node matches the role. -/
lemma find_wf_node_ok (wf : Workflow) (r : Role)
    (h : countRole wf r = 1) :
    ∃ n, find_wf_node wf r = .ok n := by
  unfold find_wf_node
  unfold countRole at h
  rcases hf : wf.nodes.filter (fun n => n.role = r) with _ | ⟨a, _ | ⟨b, l⟩⟩
  · rw [hf] at h; simp at h
  · exact ⟨a, by rw [hf]⟩
  · rw [hf] at h; simp at h

/-- Appending nodes none of which match the role leaves the role count
unchanged. -/
lemma countRole_append (wf : Workflow) (nm : String) (cs : List Connection)
    (extra : List WfNode) (r : Role)
    (hextra : extra.filter (fun n => n.role = r) = []) :
    countRole { name := nm, nodes := wf.nodes ++ extra, conns := cs } r =
      countRole wf r := by
  unfold countRole
  simp [List.filter_append, hextra]

/-- The anat attachment fails on the file-selection role when its count in
the host is not one. -/
lemma attach_anat_err_sel (main : Workflow) (w : String)
    (hs : countRole main .selectFiles ≠ 1) :
    attach_spm_anat_preprocessing main w =
      .error (.unresolvedBoundaryPort .selectFiles) := by
  unfold attach_spm_anat_preprocessing
  rw [find_wf_node_error main .selectFiles hs]

/-- The anat attachment fails on the result-sink role when the
file-selection role is unique but the result-sink count is not one. -/
lemma attach_anat_err_ds (main : Workflow) (w : String)
    (hs : countRole main .selectFiles = 1)
    (hd : countRole main .dataSink ≠ 1) :
    attach_spm_anat_preprocessing main w =
      .error (.unresolvedBoundaryPort .dataSink) := by
  obtain ⟨n1, h1⟩ := find_wf_node_ok main .selectFiles hs
  unfold attach_spm_anat_preprocessing
  rw [h1, find_wf_node_error main .dataSink hd]

/-- The anat attachment succeeds when both roles are unique in the host. -/
lemma attach_anat_isOk (main : Workflow) (w : String)
    (hs : countRole main .selectFiles = 1)
    (hd : countRole main .dataSink = 1) :
    ∃ main2, attach_spm_anat_preprocessing main w = .ok main2 := by
  obtain ⟨n1, h1⟩ := find_wf_node_ok main .selectFiles hs
  obtain ⟨n2, h2⟩ := find_wf_node_ok main .dataSink hd
  exact ⟨_, by unfold attach_spm_anat_preprocessing; rw [h1, h2]⟩

/-- A successful anat attachment appends only the namespaced anat nodes to
the host's node set. -/
lemma attach_anat_nodes (main : Workflow) (w : String) (main2 : Workflow)
    (h : attach_spm_anat_preprocessing main w = .ok main2) :
    main2.nodes = main.nodes ++ namespacedNodes (spm_anat_preprocessing w) := by
  unfold attach_spm_anat_preprocessing at h
  rcases h1 : find_wf_node main .selectFiles with e | n1 <;> rw [h1] at h
  · cases h
  · rcases h2 : find_wf_node main .dataSink with e | n2 <;> rw [h2] at h
    · cases h
    · cases h; rfl

/-- The namespaced anat nodes carry no discovery role. -/
lemma anat_nodes_filter (w : String) (r : Role) (hr : r ≠ Role.other) :
    (namespacedNodes (spm_anat_preprocessing w)).filter
      (fun n => n.role = r) = [] := by
  simp [namespacedNodes, spm_anat_preprocessing, plainNode, List.filter,
    (Ne.symm hr)]

/-- A successful anat attachment preserves the count of any discovery
role. -/
lemma countRole_after_anat (main : Workflow) (w : String) (main2 : Workflow)
    (h : attach_spm_anat_preprocessing main w = .ok main2)
    (r : Role) (hr : r ≠ Role.other) :
    countRole main2 r = countRole main r := by
  have hn := attach_anat_nodes main w main2 h
  unfold countRole
  rw [hn, List.filter_append, anat_nodes_filter w r hr]
  simp

/-! ## Claim C5 -/

/-- C5: attaching the diffusion sub-workflow discovers the host's
file-selection node and result-sink node by role, deterministically: if
the file-selection role is matched by zero or several nodes the attach
fails with the unresolved-boundary-port error for that role; if it is
matched by exactly one but the result-sink role is not, the attach fails
with the unresolved-boundary-port error for the sink role; if each role is
matched by exactly one node, the attach succeeds. -/
theorem attach_fsl_dti_role_discovery (main : Workflow) (w : String) :
    (countRole main .selectFiles ≠ 1 →
      attach_fsl_dti_preprocessing main w =
        .error (.unresolvedBoundaryPort .selectFiles)) ∧
    (countRole main .selectFiles = 1 → countRole main .dataSink ≠ 1 →
      attach_fsl_dti_preprocessing main w =
        .error (.unresolvedBoundaryPort .dataSink)) ∧
    (countRole main .selectFiles = 1 → countRole main .dataSink = 1 →
      ∃ out, attach_fsl_dti_preprocessing main w = .ok out) := by
  refine ⟨?_, ?_, ?_⟩
  · intro hs
    unfold attach_fsl_dti_preprocessing
    rw [attach_anat_err_sel main _ hs]
  · intro hs hd
    unfold attach_fsl_dti_preprocessing
    rw [attach_anat_err_ds main _ hs hd]
  · intro hs hd
    obtain ⟨main2, h2⟩ := attach_anat_isOk main "spm_anat_preproc" hs hd
    have hs2 : countRole main2 .selectFiles = 1 := by
      rw [countRole_after_anat main _ main2 h2 .selectFiles (by simp)]
      exact hs
    have hd2 : countRole main2 .dataSink = 1 := by
      rw [countRole_after_anat main _ main2 h2 .dataSink (by simp)]
      exact hd
    obtain ⟨n1, hf1⟩ := find_wf_node_ok main2 .selectFiles hs2
    obtain ⟨n2, hf2⟩ := find_wf_node_ok main2 .dataSink hd2
    unfold attach_fsl_dti_preprocessing
    apply Exists.intro
    rw [h2]
    simp only [hf1, hf2]
    rfl

/-- C5 witness: a host graph with exactly one file-selection node and one
result-sink node is attachable. -/
theorem attach_fsl_dti_role_discovery_witness :
    ∃ out, attach_fsl_dti_preprocessing
      { name := "main_workflow",
        nodes := [{ name := "input_files.select", role := .selectFiles },
                  { name := "datasink", role := .dataSink }],
        conns := [] } "fsl_dti_preproc" = .ok out :=
  (attach_fsl_dti_role_discovery
    { name := "main_workflow",
      nodes := [{ name := "input_files.select", role := .selectFiles },
                { name := "datasink", role := .dataSink }],
      conns := [] } "fsl_dti_preproc").2.2 (by decide) (by decide)

/-! ## Claim C6 -/

/-- An empty axis yields an empty expansion (and no error: the expansion
is a total function). -/
lemma expandIterables_nil_of_empty_axis (axes : List (String × List String))
    (h : ∃ ax ∈ axes, ax.2 = []) : expandIterables axes = [] := by
  induction axes with
  | nil => obtain ⟨ax, hmem, _⟩ := h; simp at hmem
  | cons a rest ih =>
    obtain ⟨ax, hmem, hempty⟩ := h
    rcases List.mem_cons.mp hmem with heq | hmem2
    · rcases a with ⟨f, vs⟩
      rw [heq] at hempty
      cases hempty
      simp [expandIterables]
    · rcases a with ⟨f, vs⟩
      have hrest := ih ⟨ax, hmem2, hempty⟩
      simp [expandIterables, hrest]

/-- C6: with iteration axes `subject_id = ["S1", "S2"]` and
`session_id = ["s0"]` (as set on the `infosrc` node built by
`subject_session_input`), the iteration expansion yields exactly 2 logical
execution instances, each with a distinct instance namespace; and for any
axes list containing an axis with an empty value list, the expansion
yields exactly 0 instances (returning normally, since it is a total
function). -/
theorem iteration_expansion_count (axes : List (String × List String)) :
    (expandIterables (node_iterables
      (subject_session_input ["s0"] ["S1", "S2"] "input_files")
      "infosrc")).length = 2 ∧
    ((expandIterables (node_iterables
      (subject_session_input ["s0"] ["S1", "S2"] "input_files")
      "infosrc")).map instanceTag).Nodup ∧
    ((∃ ax ∈ axes, ax.2 = []) → expandIterables axes = []) :=
  ⟨by decide, by decide, expandIterables_nil_of_empty_axis axes⟩

/-- C6 witness: an axes list with an empty subject axis expands to zero
instances. -/
theorem iteration_expansion_count_witness :
    expandIterables [("session_id", ["s0"]), ("subject_id", [])] = [] :=
  (iteration_expansion_count [("session_id", ["s0"]), ("subject_id", [])]).2.2
    ⟨("subject_id", []), by simp, rfl⟩

/-! ## Claim C7 -/

/-- Two path joins through a separator character agree only componentwise,
provided neither left component contains the separator. -/
lemma append_cons_inj {α : Type} (c : α) (a1 b1 a2 b2 : List α)
    (h1 : c ∉ a1) (h2 : c ∉ a2) (h : a1 ++ c :: b1 = a2 ++ c :: b2) :
    a1 = a2 ∧ b1 = b2 := by
  induction a1 generalizing a2 with
  | nil =>
    cases a2 with
    | nil => simpa using h
    | cons y ys =>
      simp only [List.nil_append, List.cons_append, List.cons.injEq] at h
      exact absurd (h.1 ▸ List.mem_cons_self y ys) (h.1 ▸ h2)
  | cons x xs ih =>
    cases a2 with
    | nil =>
      simp only [List.nil_append, List.cons_append, List.cons.injEq] at h
      exact absurd (h.1 ▸ List.mem_cons_self x xs) (by
        rw [h.1] at h1; exact h1)
    | cons y ys =>
      simp only [List.cons_append, List.cons.injEq] at h
      have h1' : c ∉ xs := fun hm => h1 (List.mem_cons_of_mem x hm)
      have h2' : c ∉ ys := fun hm => h2 (List.mem_cons_of_mem y hm)
      obtain ⟨ha, hb⟩ := ih ys h1' h2' h.2
      exact ⟨by rw [h.1, ha], hb⟩

/-- C7: the result-sink node's storage container for one execution
instance is the identifier tuple joined as a sub-path nested by subject
then session — the subject identifier first, then the session identifier —
and the subject identifier alone when no session axis is given; distinct
identifier tuples (with separator-free identifiers on the subject side)
give distinct sub-paths, so per-instance outputs are not merged. -/
theorem datasink_container_nesting :
    (∀ (sns : List String) (sids : List String) (iwn wn : String),
      ∃ pre, (in_out_workflow (some sns) sids iwn wn).conns =
        pre ++ [⟨iwn ++ ".infosrc", "subject_id", "joinpath", "arg1"⟩,
                ⟨iwn ++ ".infosrc", "session_id", "joinpath", "arg2"⟩,
                ⟨"joinpath", "out", "datasink", "container"⟩]) ∧
    (∀ (sids : List String) (iwn wn : String),
      ∃ pre, (in_out_workflow none sids iwn wn).conns =
        pre ++ [⟨iwn ++ ".infosrc", "subject_id", "datasink", "container"⟩]) ∧
    (∀ (sns : List String) (subj sess : String),
      in_out_container (some sns) subj sess = subj ++ "/" ++ sess) ∧
    (∀ subj sess : String, in_out_container none subj sess = subj) ∧
    (∀ s1 e1 s2 e2 : String, '/' ∉ s1.data → '/' ∉ s2.data →
      joinpaths s1 e1 = joinpaths s2 e2 → s1 = s2 ∧ e1 = e2) := by
  refine ⟨fun sns sids iwn wn => ⟨_, rfl⟩, fun sids iwn wn => ⟨_, rfl⟩,
    fun sns subj sess => rfl, fun subj sess => rfl, ?_⟩
  intro s1 e1 s2 e2 hc1 hc2 hj
  have hd : s1.data ++ '/' :: e1.data = s2.data ++ '/' :: e2.data := by
    have hdata := congrArg String.data hj
    simpa [joinpaths, String.data_append] using hdata
  obtain ⟨ha, hb⟩ := append_cons_inj '/' s1.data e1.data s2.data e2.data
    hc1 hc2 hd
  exact ⟨String.ext ha, String.ext hb⟩

/-- C7 witness: subject `"S1"`, session `"s0"`. -/
theorem datasink_container_nesting_witness :
    (∃ pre, (in_out_workflow (some ["s0"]) ["S1"] "input_files" "main").conns =
      pre ++ [⟨"input_files" ++ ".infosrc", "subject_id", "joinpath", "arg1"⟩,
              ⟨"input_files" ++ ".infosrc", "session_id", "joinpath", "arg2"⟩,
              ⟨"joinpath", "out", "datasink", "container"⟩]) ∧
    in_out_container (some ["s0"]) "S1" "s0" = "S1" ++ "/" ++ "s0" ∧
    in_out_container none "S1" "s0" = "S1" ∧
    ("S1" = "S1" ∧ "s0" = "s0") :=
  ⟨datasink_container_nesting.1 ["s0"] ["S1"] "input_files" "main",
   datasink_container_nesting.2.2.1 ["s0"] "S1" "s0",
   datasink_container_nesting.2.2.2.1 "S1" "s0",
   datasink_container_nesting.2.2.2.2 "S1" "s0" "S1" "s0"
     (by decide) (by decide) rfl⟩

/-! ## Claim C10 -/

/-- C10 counterexample: the empty plugin name with `n_cpus = 2` runs
serially, not with that plugin — the claim's "any other plugin with
n_cpus > 1 is run with that plugin" fails for the falsy plugin name. -/
theorem run_wf_empty_plugin_counterexample :
    run_wf (some "") 2 [] = .serial ∧
    run_wf (some "") 2 [] ≠ .withPlugin "" [] := by decide

/-- C10 (amended): with `n_cpus ≤ 1` every plugin runs serially; the
multi-process path with the worker count as process budget is taken
exactly when the plugin is `"MultiProc"` and `n_cpus > 1`; any other
non-empty plugin name with `n_cpus > 1` runs with that plugin and its
keyword arguments; an absent or empty (falsy) plugin runs serially for
every worker count. -/
theorem run_wf_dispatch (p : Option String) (n : Int)
    (kw : List (String × String)) :
    (n ≤ 1 → run_wf p n kw = .serial) ∧
    (run_wf p n kw = .multiProc n ↔ (p = some "MultiProc" ∧ n > 1)) ∧
    (∀ nm : String, p = some nm → nm ≠ "MultiProc" → nm ≠ "" → n > 1 →
      run_wf p n kw = .withPlugin nm kw) ∧
    ((p = none ∨ p = some "") → run_wf p n kw = .serial) := by
  refine ⟨?_, ?_, ?_, ?_⟩
  · intro hn
    unfold run_wf
    rw [if_neg (by rintro ⟨_, hgt⟩; omega), if_pos (Or.inr (Or.inr hn))]
  · unfold run_wf
    by_cases h1 : p = some "MultiProc" ∧ n > 1
    · rw [if_pos h1]
      simp [h1]
    · rw [if_neg h1]
      constructor
      · intro h
        split at h <;> simp at h
      · intro h
        exact absurd h h1
  · intro nm hp hmp hne hn
    unfold run_wf
    rw [if_neg (by rintro ⟨hmm, _⟩; rw [hp] at hmm; exact hmp (Option.some.inj hmm)),
        if_neg (by
          rintro (he | hnone | hle)
          · rw [hp] at he; exact hne (Option.some.inj he)
          · rw [hp] at hnone; cases hnone
          · omega)]
    rw [hp]
    rfl
  · intro hfalsy
    unfold run_wf
    rcases hfalsy with he | he
    · rw [if_neg (by rintro ⟨hmm, _⟩; rw [he] at hmm; cases hmm),
          if_pos (Or.inr (Or.inl he))]
    · rw [if_neg (by
            rintro ⟨hmm, _⟩
            rw [he] at hmm
            exact absurd (Option.some.inj hmm) (by decide)),
          if_pos (Or.inl he)]

/-- C10 witness: the `"Linear"` plugin with three workers runs with that
plugin and its keyword arguments. -/
theorem run_wf_dispatch_witness :
    run_wf (some "Linear") 3 [("a", "b")] = .withPlugin "Linear" [("a", "b")] :=
  (run_wf_dispatch (some "Linear") 3 [("a", "b")]).2.2.1 "Linear" rfl
    (by decide) (by decide) (by decide)

end Pypes
